import Mathlib

set_option linter.unusedVariables false

/-!
Verification of the Bulbul ticket-booking backend (Go) against its
natural-language specification.

The Go program is shallowly embedded: database tables become lists of rows,
each SQL statement becomes a pure function on that state, and every service
or consumer routine becomes a Lean function translated line by line from its
Go source.  External collaborators (payment gateway, ticketing provider,
Elasticsearch, cache engine) are passed in as explicit parameters, exactly at
the call sites where the Go code invokes them.

Where the repository contains several revisions of the same Go file, each
variant is embedded in its own namespace and the comment above every
definition names the exact source file it is translated from.
-/

namespace Bulbul

/-- A row of the `seats` table
(`src/infra/roles/postgresql/templates/tables.sql`, scanned by
`src/internal/repository/seats.go`).  The `updated_at`/`created_at` audit
columns are not modelled; no claim mentions them. -/
structure Seat where
  id      : String
  eventID : Int
  row     : Int
  number  : Int
  status  : String
  price   : Option Int
deriving Repr, DecidableEq

/-- A row of the `bookings` table (scanned by
`src/unnamed/part_004`, `BookingRepository`).  `createdAt` is kept as an
integer timestamp because the expiration sweep compares it with a cutoff;
`updated_at` is not modelled. -/
structure Booking where
  id            : Int
  eventID       : Int
  userID        : Option Int
  status        : String
  paymentStatus : String
  totalAmount   : Option String
  paymentID     : Option String
  orderID       : Option String
  createdAt     : Int
deriving Repr, DecidableEq

/-- A row of the `booking_seats` link table (`reserved_at` not modelled). -/
structure BookingSeat where
  bookingID : Int
  seatID    : String
deriving Repr, DecidableEq

/-- The relational state the claims range over: the three tables touched by
the booking/seat/payment core. -/
structure DB where
  seats        : List Seat
  bookings     : List Booking
  bookingSeats : List BookingSeat
deriving Repr, DecidableEq

/-- `SELECT ... FROM seats WHERE id = $1` as in `SeatRepository.GetByID`
(`src/internal/repository/seats.go`): the first row with the given id,
`none` for `sql.ErrNoRows`. -/
def findSeat (db : DB) (sid : String) : Option Seat :=
  db.seats.find? (fun s => s.id == sid)

/-- `SELECT ... FROM bookings WHERE id = $1` as in `BookingRepository.GetByID`
(`src/unnamed/part_004`). -/
def findBooking (db : DB) (bid : Int) : Option Booking :=
  db.bookings.find? (fun b => b.id == bid)

/-- `UPDATE seats SET status = $1 WHERE id = $2`
(`SeatRepository.UpdateStatus`, `src/internal/repository/seats.go`). -/
def updateSeatStatus (db : DB) (sid : String) (st : String) : DB :=
  { db with seats := db.seats.map (fun t => if t.id == sid then { t with status := st } else t) }

/-- `SeatRepository.ReserveSeat` (`src/internal/repository/seats.go`,
lines 138-172): inside one transaction, `SELECT status ... FOR UPDATE`,
fail with "seat is not available" unless the status is FREE, then
`UPDATE seats SET status = RESERVED` and `INSERT INTO booking_seats`.
An error means the transaction rolled back: no state is produced. -/
def reserveSeat (db : DB) (sid : String) (bid : Int) : Except String DB :=
  match findSeat db sid with
  | none => .error "no rows in result set"
  | some s =>
    if s.status = "FREE" then
      .ok { updateSeatStatus db sid "RESERVED" with
            bookingSeats := db.bookingSeats ++ [⟨bid, sid⟩] }
    else
      .error "seat is not available"

/-- `SeatRepository.ReleaseSeat` (`src/internal/repository/seats.go`,
lines 174-196): unconditionally `UPDATE seats SET status = FREE WHERE id = $1`
and `DELETE FROM booking_seats WHERE seat_id = $1`, in one transaction. -/
def releaseSeat (db : DB) (sid : String) : DB :=
  { updateSeatStatus db sid "FREE" with
    bookingSeats := db.bookingSeats.filter (fun bs => !(bs.seatID == sid)) }

/-- `BookingRepository.Update` (`src/unnamed/part_004`): writes status,
payment_status, total_amount, payment_id and order_id of the row whose id
matches; all other columns (and rows) are untouched. -/
def bookingUpdate (db : DB) (b : Booking) : DB :=
  { db with bookings := db.bookings.map (fun r =>
      if r.id == b.id then
        { r with status := b.status, paymentStatus := b.paymentStatus,
                 totalAmount := b.totalAmount, paymentID := b.paymentID,
                 orderID := b.orderID }
      else r) }

/-- `BookingRepository.GetSeats` (`src/unnamed/part_004`): the join of
`booking_seats` with `seats` for one booking.  The SQL orders the result by
`row_number, seat_number`; the order is irrelevant to every claim proved
here (the rows are only summed over or updated one by one), so the join is
kept in table order. -/
def getSeats (db : DB) (bid : Int) : List Seat :=
  (db.bookingSeats.filter (fun bs => bs.bookingID == bid)).filterMap
    (fun bs => findSeat db bs.seatID)

/-- `INSERT INTO bookings ... RETURNING id` (`BookingRepository.Create`,
`src/unnamed/part_004`).  The database assigns the fresh id and timestamp;
both are passed in. -/
def bookingInsert (db : DB) (b : Booking) (newID : Int) (now : Int) : DB :=
  { db with bookings := db.bookings ++ [{ b with id := newID, createdAt := now }] }

end Bulbul

namespace Bulbul

/-- Updating a seat status commutes with row lookup: the lookup sees the same
row, with the status rewritten when the id matches. -/
theorem findSeat_updateSeatStatus (db : DB) (sid sid2 st : String) :
    findSeat (updateSeatStatus db sid st) sid2 =
      (findSeat db sid2).map (fun t => if t.id == sid then { t with status := st } else t) := by
  have hp : ((fun s : Seat => s.id == sid2) ∘ fun t : Seat =>
      if t.id == sid then { t with status := st } else t) = fun s : Seat => s.id == sid2 := by
    funext t
    by_cases h : t.id == sid <;> simp [h, Function.comp]
  simp only [findSeat, updateSeatStatus, List.find?_map, hp]

/-- The serialized execution of a batch of `ReserveSeat` transactions on one
seat id.  The `FOR UPDATE` row lock in `SeatRepository.ReserveSeat` makes
concurrent transactions on one seat execute in some serial order, so a list
of booking ids in an arbitrary order models any concurrent schedule.  A
failed transaction rolls back: the state is kept. -/
def runReserves (db : DB) (sid : String) : List Int → DB × List (Except String Unit)
  | [] => (db, [])
  | bid :: rest =>
    match reserveSeat db sid bid with
    | .ok db2 =>
      let r := runReserves db2 sid rest
      (r.1, .ok () :: r.2)
    | .error e =>
      let r := runReserves db sid rest
      (r.1, .error e :: r.2)

/-- Once the seat row is not FREE, every further `ReserveSeat` fails with
"seat is not available" and the state never changes. -/
theorem runReserves_not_free (db : DB) (sid : String) (s : Seat)
    (hfind : findSeat db sid = some s) (hst : s.status ≠ "FREE") :
    ∀ calls : List Int,
      runReserves db sid calls = (db, calls.map (fun _ => .error "seat is not available")) := by
  intro calls
  induction calls with
  | nil => rfl
  | cons bid rest ih =>
    have hres : reserveSeat db sid bid = .error "seat is not available" := by
      unfold reserveSeat
      rw [hfind]
      simp [hst]
    simp [runReserves, hres, ih]

/-- A `ReserveSeat` on a FREE seat commits exactly the RESERVED status plus
one new `booking_seats` row, leaving everything else alone. -/
theorem reserveSeat_free (db : DB) (sid : String) (s : Seat) (bid : Int)
    (hfind : findSeat db sid = some s) (hfree : s.status = "FREE") :
    reserveSeat db sid bid =
      .ok { updateSeatStatus db sid "RESERVED" with
            bookingSeats := db.bookingSeats ++ [⟨bid, sid⟩] } := by
  unfold reserveSeat
  rw [hfind]
  simp [hfree]

end Bulbul

namespace Bulbul

/-- C1: among any serialized batch of `ReserveSeat`/`SelectSeat` transactions
on one seat id whose row starts FREE (and, per the FREE-seat invariant,
unlinked), exactly the first succeeds and every other fails with
"seat is not available" (HTTP 419); afterwards the row is RESERVED and
exactly one `booking_seats` row, pointing at the winning booking, references
the seat.  A `ReserveSeat` on a non-FREE row always fails with the same
error and, the transaction rolling back, commits nothing. -/
theorem reserveSeat_mutual_exclusion
    (db : DB) (sid : String) (s : Seat) (c : Int) (rest : List Int)
    (hfind : findSeat db sid = some s)
    (hfree : s.status = "FREE")
    (hnolink : db.bookingSeats.filter (fun bs => bs.seatID == sid) = []) :
    ((runReserves db sid (c :: rest)).2 =
        .ok () :: rest.map (fun _ => .error "seat is not available"))
    ∧ findSeat (runReserves db sid (c :: rest)).1 sid = some { s with status := "RESERVED" }
    ∧ (runReserves db sid (c :: rest)).1.bookingSeats.filter (fun bs => bs.seatID == sid)
        = [⟨c, sid⟩]
    ∧ ∀ (db2 : DB) (sid2 : String) (bid2 : Int) (s2 : Seat),
        findSeat db2 sid2 = some s2 → s2.status ≠ "FREE" →
        reserveSeat db2 sid2 bid2 = .error "seat is not available" := by
  have hfind0 : db.seats.find? (fun t => t.id == sid) = some s := hfind
  have hsid : (s.id == sid) = true := by
    have hp := List.find?_some hfind0
    exact hp
  have hres := reserveSeat_free db sid s c hfind hfree
  set dbR : DB := { updateSeatStatus db sid "RESERVED" with
      bookingSeats := db.bookingSeats ++ [⟨c, sid⟩] } with hdbR
  have hfindR : findSeat dbR sid = some { s with status := "RESERVED" } := by
    have hseats : findSeat dbR sid = findSeat (updateSeatStatus db sid "RESERVED") sid := rfl
    rw [hseats, findSeat_updateSeatStatus, hfind, Option.map_some', if_pos hsid]
  have hstuck := runReserves_not_free dbR sid { s with status := "RESERVED" } hfindR
      (by simp) rest
  have hrun : runReserves db sid (c :: rest) =
      (dbR, .ok () :: rest.map (fun _ => .error "seat is not available")) := by
    simp [runReserves, hres, hstuck]
  refine ⟨by rw [hrun], by rw [hrun]; exact hfindR, ?_, ?_⟩
  · rw [hrun]
    have hbs : dbR.bookingSeats = db.bookingSeats ++ [⟨c, sid⟩] := rfl
    rw [hbs, List.filter_append, hnolink]
    simp
  · intro db2 sid2 bid2 s2 hfind2 hst2
    unfold reserveSeat
    rw [hfind2]
    simp [hst2]

/-- A one-seat database used to instantiate the C1 theorem. -/
def c1db : DB :=
  { seats := [{ id := "s1", eventID := 2, row := 1, number := 1,
                status := "FREE", price := some 5000 }],
    bookings := [{ id := 1, eventID := 2, userID := some 1, status := "CREATED",
                   paymentStatus := "PENDING", totalAmount := some "0",
                   paymentID := none, orderID := none, createdAt := 0 }],
    bookingSeats := [] }

/-- Witness for C1: bookings 7 and 8 race for the FREE seat "s1"; booking 7
wins, booking 8 gets "seat is not available", and the final link table holds
exactly the winner's row. -/
theorem reserveSeat_mutual_exclusion_witness :
    ((runReserves c1db "s1" [7, 8]).2 = [.ok (), .error "seat is not available"])
    ∧ (runReserves c1db "s1" [7, 8]).1.bookingSeats.filter (fun bs => bs.seatID == "s1")
        = [⟨7, "s1"⟩] := by
  have h := reserveSeat_mutual_exclusion c1db "s1"
      { id := "s1", eventID := 2, row := 1, number := 1, status := "FREE", price := some 5000 }
      7 [8] (by decide) (by decide) (by decide)
  exact ⟨by simpa using h.1, h.2.2.1⟩

end Bulbul

namespace Bulbul

/-- Lookup in a Go `map[string]string` modelled as an association list
(`params[key]`). -/
def mapFind (m : List (String × String)) (k : String) : Option String :=
  (m.find? (fun p => p.1 == k)).map Prod.snd

/-- Assignment `params[k] = v` on a Go map: overwrite the entry if the key
exists, append it otherwise. -/
def mapInsert (m : List (String × String)) (k v : String) : List (String × String) :=
  if m.any (fun p => p.1 == k) then m.map (fun p => if p.1 == k then (k, v) else p)
  else m ++ [(k, v)]

/-- One step of the insertion sort implementing Go `sort.Strings`
(ascending byte-lexicographic order, which on `String` is `≤`). -/
def insertStr (x : String) : List String → List String
  | [] => [x]
  | y :: ys => if x ≤ y then x :: y :: ys else y :: insertStr x ys

/-- `sort.Strings` on a key list. -/
def sortStrings : List String → List String
  | [] => []
  | x :: xs => insertStr x (sortStrings xs)

/-- Concatenation of the values of `m` at a list of keys, in that order
(the token-string loop of `generateToken`). -/
def concatValues (m : List (String × String)) : List String → String
  | [] => ""
  | k :: ks => (mapFind m k).getD "" ++ concatValues m ks

/-- `PaymentClient.generateToken` (`src/unnamed/part_011`, lines 98-119),
with two external details made explicit: `sha256hex` is Go's
`hex.EncodeToString(sha256.Sum256 ...)` from the standard library, and
`iterKeys` is the key sequence produced by the (randomly ordered) Go
`for k := range params` loop over the augmented map. -/
def generateTokenIter (teamSlug password : String) (sha256hex : String → String)
    (params : List (String × String)) (iterKeys : List String) : String :=
  let m := mapInsert (mapInsert params "TeamSlug" teamSlug) "Password" password
  let keys := sortStrings iterKeys
  sha256hex (keys.foldl (fun acc k => acc ++ (mapFind m k).getD "") "")

/-- `generateToken` with the canonical iteration order (the augmented map's
own key list); any actual run is `generateTokenIter` at some permutation of
these keys. -/
def generateToken (teamSlug password : String) (sha256hex : String → String)
    (params : List (String × String)) : String :=
  generateTokenIter teamSlug password sha256hex params
    ((mapInsert (mapInsert params "TeamSlug" teamSlug) "Password" password).map Prod.fst)

/-- The token formula exactly as the spec words it: augment the parameter
map with the TeamSlug and Password entries, sort the keys ascending,
concatenate the values in that order, hash. -/
def specToken (teamSlug password : String) (sha256hex : String → String)
    (params : List (String × String)) : String :=
  let m := mapInsert (mapInsert params "TeamSlug" teamSlug) "Password" password
  sha256hex (concatValues m (sortStrings (m.map Prod.fst)))

/-- The token-string fold is value concatenation. -/
theorem foldl_concatValues (m : List (String × String)) :
    ∀ (ks : List String) (acc : String),
      ks.foldl (fun acc k => acc ++ (mapFind m k).getD "") acc = acc ++ concatValues m ks := by
  intro ks
  induction ks with
  | nil => intro acc; simp [concatValues]
  | cons k ks ih =>
    intro acc
    simp [concatValues, List.foldl_cons, ih, String.append_assoc]

theorem insertStr_perm (x : String) : ∀ l : List String, (insertStr x l).Perm (x :: l) := by
  intro l
  induction l with
  | nil => simp [insertStr]
  | cons y ys ih =>
    by_cases h : x ≤ y
    · simp [insertStr, h]
    · simp only [insertStr, if_neg h]
      exact (ih.cons y).trans (List.Perm.swap x y ys)

theorem insertStr_sorted (x : String) (l : List String)
    (h : l.Pairwise (· ≤ ·)) : (insertStr x l).Pairwise (· ≤ ·) := by
  induction l with
  | nil => simp [insertStr]
  | cons y ys ih =>
    rcases List.pairwise_cons.mp h with ⟨hy, hys⟩
    by_cases hxy : x ≤ y
    · simp only [insertStr, if_pos hxy]
      refine List.pairwise_cons.mpr ⟨?_, h⟩
      intro z hz
      rcases List.mem_cons.mp hz with hz | hz
      · subst hz; exact hxy
      · exact le_trans hxy (hy z hz)
    · simp only [insertStr, if_neg hxy]
      refine List.pairwise_cons.mpr ⟨?_, ih hys⟩
      intro z hz
      have hz2 := (insertStr_perm x ys).mem_iff.mp hz
      rcases List.mem_cons.mp hz2 with hz2 | hz2
      · subst hz2; exact le_of_not_le hxy
      · exact hy z hz2

theorem sortStrings_perm : ∀ l : List String, (sortStrings l).Perm l := by
  intro l
  induction l with
  | nil => simp [sortStrings]
  | cons x xs ih =>
    exact (insertStr_perm x (sortStrings xs)).trans (ih.cons x)

theorem sortStrings_sorted : ∀ l : List String, (sortStrings l).Pairwise (· ≤ ·) := by
  intro l
  induction l with
  | nil => simp [sortStrings]
  | cons x xs ih => exact insertStr_sorted x (sortStrings xs) ih

/-- Permuting the input does not change the sorted output: the sort result
is the unique ascending arrangement of the multiset of keys. -/
theorem sortStrings_eq_of_perm (l₁ l₂ : List String) (h : l₁.Perm l₂) :
    sortStrings l₁ = sortStrings l₂ := by
  refine List.eq_of_perm_of_sorted ?_ (sortStrings_sorted l₁) (sortStrings_sorted l₂)
  exact (sortStrings_perm l₁).trans (h.trans (sortStrings_perm l₂).symm)

/-- C9: the payment-gateway token equals the SHA-256 hash (hex-encoded by
the Go standard library, abstracted as `sha256hex`) of the concatenation,
in ascending ASCII key order, of the values of the parameter map augmented
with the TeamSlug and Password entries; and it is deterministic: whatever
key order the Go map iteration produces, the token is the same. -/
theorem generateToken_correct (teamSlug password : String)
    (sha256hex : String → String) (params : List (String × String)) :
    (generateToken teamSlug password sha256hex params =
        specToken teamSlug password sha256hex params)
    ∧ ∀ iterKeys : List String,
        iterKeys.Perm ((mapInsert (mapInsert params "TeamSlug" teamSlug)
            "Password" password).map Prod.fst) →
        generateTokenIter teamSlug password sha256hex params iterKeys =
          generateToken teamSlug password sha256hex params := by
  constructor
  · simp only [generateToken, generateTokenIter, specToken]
    rw [foldl_concatValues]
    simp
  · intro iterKeys hperm
    simp only [generateToken, generateTokenIter]
    rw [sortStrings_eq_of_perm _ _ hperm]

/-- Witness for C9 at the parameter map of `InitPayment` for amount 100,
currency RUB, order "o-1": reversing the iteration order of the augmented
map leaves the token unchanged and equal to the spec's formula. -/
theorem generateToken_correct_witness :
    (generateToken "team" "pw" (fun s => s)
        [("Amount", "100"), ("Currency", "RUB"), ("OrderId", "o-1")] =
      specToken "team" "pw" (fun s => s)
        [("Amount", "100"), ("Currency", "RUB"), ("OrderId", "o-1")])
    ∧ generateTokenIter "team" "pw" (fun s => s)
        [("Amount", "100"), ("Currency", "RUB"), ("OrderId", "o-1")]
        ["Password", "TeamSlug", "OrderId", "Currency", "Amount"] =
      generateToken "team" "pw" (fun s => s)
        [("Amount", "100"), ("Currency", "RUB"), ("OrderId", "o-1")] := by
  have h := generateToken_correct "team" "pw" (fun s => s)
      [("Amount", "100"), ("Currency", "RUB"), ("OrderId", "o-1")]
  exact ⟨h.1, h.2 ["Password", "TeamSlug", "OrderId", "Currency", "Amount"] (by decide)⟩

end Bulbul

namespace Bulbul

/-- A place row of the external ticketing provider, as decoded by
`TicketingClient.GetPlaces` (`src/internal/external/ticketing.go`). -/
structure Place where
  id     : String
  row    : Int
  seat   : Int
  isFree : Bool
deriving Repr, DecidableEq

/-- An element of the seats-listing JSON response
(`models.ListSeatsResponseItem`, `src/internal/models/events.go`). -/
structure SeatItem where
  id     : String
  row    : Int
  number : Int
  status : String
  price  : String
deriving Repr, DecidableEq

/-- `ORDER BY row_number, seat_number` of the seats query, as a Boolean
comparison. -/
def seatLe (a b : Seat) : Bool :=
  decide (a.row < b.row) || (a.row == b.row && decide (a.number ≤ b.number))

def insertSeatOrd (x : Seat) : List Seat → List Seat
  | [] => [x]
  | y :: ys => if seatLe x y then x :: y :: ys else y :: insertSeatOrd x ys

def sortSeats : List Seat → List Seat
  | [] => []
  | x :: xs => insertSeatOrd x (sortSeats xs)

/-- `SeatRepository.GetByEventID` (`src/internal/repository/seats.go`,
lines 47-105): filter by event and the optional row/status parameters,
order by (row_number, seat_number), then `LIMIT pageSize OFFSET
(page-1)*pageSize` when both are positive. -/
def getByEventID (db : DB) (eventID : Int) (page pageSize : Int)
    (row : Option Int) (st : Option String) : List Seat :=
  let base := db.seats.filter (fun s => s.eventID == eventID
      && (match row with | none => true | some r => s.row == r)
      && (match st with | none => true | some v => s.status == v))
  let sorted := sortSeats base
  if decide (0 < page) && decide (0 < pageSize) then
    (sorted.drop (((page - 1) * pageSize).toNat)).take pageSize.toNat
  else sorted

end Bulbul

namespace Bulbul.SeatsV1

/-- `SeatService.listExternalSeats` (`src/internal/service/seats.go`,
lines 71-94): every place maps to an item whose status is FREE when the
place is free and RESERVED otherwise, and whose price is the constant
"50.00".  `places` is the `TicketingClient.GetPlaces` response. -/
def listExternalSeats (places : Except String (List Place)) :
    Except String (List SeatItem) :=
  match places with
  | .error e => .error ("failed to get external places: " ++ e)
  | .ok ps => .ok (ps.map (fun p =>
      { id := p.id, row := p.row, number := p.seat,
        status := if p.isFree then "FREE" else "RESERVED", price := "50.00" }))

/-- `SeatService.List` (`src/internal/service/seats.go`, lines 31-69):
event 1 is answered entirely from the ticketing provider; other events are
checked against the event store (`eventFound`) and read from the local
seats table, with the price rendered by Go's `fmt.Sprintf("%.2f",
float64(price)/100.0)`, abstracted as `fmtPrice` ("0.00" for a null
price). -/
def list (db : DB) (eventID : Int) (page pageSize : Int) (row : Option Int)
    (st : Option String) (places : Except String (List Place))
    (eventFound : Bool) (fmtPrice : Int → String) :
    Except String (List SeatItem) :=
  if eventID == 1 then listExternalSeats places
  else if !eventFound then .error "event not found"
  else .ok ((getByEventID db eventID page pageSize row st).map (fun s =>
      { id := s.id, row := s.row, number := s.number, status := s.status,
        price := match s.price with | none => "0.00" | some p => fmtPrice p }))

end Bulbul.SeatsV1

namespace Bulbul

/-- C10: listing seats for event 1 never reads the local seats table - the
result is the same for any database contents - and every returned item is
the direct image of a `GetPlaces` row: status FREE for a free place and
RESERVED otherwise (never SOLD), price the constant "50.00". -/
theorem seats_list_event1_external (db db2 : DB) (page pageSize : Int)
    (row : Option Int) (st : Option String) (places : List Place)
    (eventFound eventFound2 : Bool) (fmtPrice fmtPrice2 : Int → String) :
    (SeatsV1.list db 1 page pageSize row st (.ok places) eventFound fmtPrice =
        .ok (places.map (fun p =>
          { id := p.id, row := p.row, number := p.seat,
            status := if p.isFree then "FREE" else "RESERVED", price := "50.00" })))
    ∧ (SeatsV1.list db 1 page pageSize row st (.ok places) eventFound fmtPrice =
        SeatsV1.list db2 1 page pageSize row st (.ok places) eventFound2 fmtPrice2)
    ∧ ∀ items, SeatsV1.list db 1 page pageSize row st (.ok places) eventFound fmtPrice
        = .ok items → ∀ it ∈ items,
          (it.status = "FREE" ∨ it.status = "RESERVED")
          ∧ it.status ≠ "SOLD" ∧ it.price = "50.00" := by
  refine ⟨rfl, rfl, ?_⟩
  intro items hitems it hit
  have hlist : items = places.map (fun p =>
      { id := p.id, row := p.row, number := p.seat,
        status := if p.isFree then "FREE" else "RESERVED",
        price := "50.00" : SeatItem }) := by
    have h0 : Except.ok (ε := String) items = .ok (places.map (fun p =>
        { id := p.id, row := p.row, number := p.seat,
          status := if p.isFree then "FREE" else "RESERVED",
          price := "50.00" : SeatItem })) := hitems.symm.trans rfl
    exact Except.ok.inj h0
  subst hlist
  rcases List.mem_map.mp hit with ⟨p, hp, hpe⟩
  subst hpe
  by_cases hf : p.isFree <;> simp [hf]

/-- Witness for C10 at a two-place provider page over disagreeing local
databases. -/
theorem seats_list_event1_external_witness :
    SeatsV1.list c1db 1 1 10 none none
        (.ok [⟨"p1", 1, 1, true⟩, ⟨"p2", 1, 2, false⟩]) true (fun _ => "9.99") =
      .ok [⟨"p1", 1, 1, "FREE", "50.00"⟩, ⟨"p2", 1, 2, "RESERVED", "50.00"⟩] := by
  have h := seats_list_event1_external c1db ⟨[], [], []⟩ 1 10 none none
      [⟨"p1", 1, 1, true⟩, ⟨"p2", 1, 2, false⟩] true false (fun _ => "9.99") (fun _ => "0.00")
  exact h.1

end Bulbul

namespace Bulbul

/-- The Go accumulation loop `totalAmount += *seat.Price` (nil contributing
nothing) computes the sum of the prices with null as 0. -/
theorem foldl_price_sum : ∀ (l : List Seat) (acc : Int),
    l.foldl (fun a s => a + (match s.price with | some p => p | none => 0)) acc
      = acc + (l.map (fun s => s.price.getD 0)).sum := by
  intro l
  induction l with
  | nil => intro acc; simp
  | cons s ss ih =>
    intro acc
    simp only [List.foldl_cons, List.map_cons, List.sum_cons, ih]
    cases s.price <;> (simp [Option.getD]; try ring)

/-- `PaymentClient.InitPayment`'s decoded success response
(`src/unnamed/part_011`): the gateway-issued payment id and payment URL. -/
structure PaymentInitResp where
  paymentID  : String
  paymentURL : String
deriving Repr, DecidableEq

/-- External calls a service issues, recorded so that "no payment-gateway
call is made" is a statement about the embedding. -/
inductive ExtCall
  | startOrder
  | payInit
deriving Repr, DecidableEq

end Bulbul

namespace Bulbul.BookingsV1

/-- `BookingService.InitiatePayment` (`src/internal/service/bookings.go`,
lines 115-199).  `newOrderID` is the `uuid.New().String()` value generated
at the call site; `initPay` is `PaymentClient.InitPayment` applied to
(amount, order id) - currency "RUB" and the description are literals at the
call.  On success the updated database and the returned payment URL. -/
def initiatePayment (db : DB) (bookingID : Int) (newOrderID : String)
    (initPay : Int → String → Except String PaymentInitResp) :
    Except String (DB × String) :=
  match findBooking db bookingID with
  | none => .error "booking not found"
  | some booking =>
    let seats := getSeats db booking.id
    if seats.length == 0 then .error "no seats in booking"
    else
      let totalAmount :=
        seats.foldl (fun a s => a + (match s.price with | some p => p | none => 0)) 0
      if !(booking.eventID == 1) then
        match initPay totalAmount newOrderID with
        | .error e => .error ("failed to initialize payment: " ++ e)
        | .ok resp =>
          let b2 := { booking with
            paymentStatus := "INITIATED"
            paymentID := some resp.paymentID
            orderID := some newOrderID
            totalAmount := some (toString totalAmount) }
          .ok (bookingUpdate db b2, resp.paymentURL)
      else
        let b2 := { booking with
          status := "CONFIRMED"
          paymentStatus := "COMPLETED"
          totalAmount := some (toString totalAmount) }
        .ok (bookingUpdate db b2, "")

/-- `BookingService.Create` (`src/internal/service/bookings.go`, lines
38-96).  `eventFound` is the Elasticsearch event lookup, `startOrder` the
`TicketingClient.StartOrder` response; `newID`/`now` are assigned by the
database insert.  The result carries the external calls that were made. -/
def create (db : DB) (eventID : Int) (uid : Option Int) (eventFound : Bool)
    (startOrder : Except String String) (newID : Int) (now : Int) :
    Except String (DB × Int × List ExtCall) :=
  if !eventFound then .error "event not found"
  else
    let booking : Booking := { id := 0, eventID := eventID, userID := uid,
                               status := "CREATED", paymentStatus := "PENDING",
                               totalAmount := some "0", paymentID := none,
                               orderID := none, createdAt := 0 }
    if eventID == 1 then
      match startOrder with
      | .error e => .error ("failed to start external order: " ++ e)
      | .ok oid =>
        let b2 := { booking with
          orderID := some oid
          status := "CONFIRMED"
          paymentStatus := "COMPLETED" }
        .ok (bookingInsert db b2 newID now, newID, [.startOrder])
    else
      .ok (bookingInsert db booking newID now, newID, [])

end Bulbul.BookingsV1

namespace Bulbul

/-- C5: `InitiatePayment` on an existing booking fails with
"no seats in booking" when no seats are linked; otherwise, with
`total = Σ price (null ↦ 0)` over the linked seats: for an event other
than 1 and a successful gateway init it persists payment_status INITIATED,
the gateway payment id, the fresh order id and `total_amount = str(total)`
and returns the gateway payment URL; for event 1 it skips the gateway and
persists status CONFIRMED, payment_status COMPLETED,
`total_amount = str(total)` and returns the empty URL. -/
theorem initiatePayment_correct (db : DB) (bookingID : Int) (booking : Booking)
    (newOrderID : String) (initPay : Int → String → Except String PaymentInitResp)
    (hfind : findBooking db bookingID = some booking) :
    (getSeats db booking.id = [] →
      BookingsV1.initiatePayment db bookingID newOrderID initPay =
        .error "no seats in booking")
    ∧ (∀ resp, getSeats db booking.id ≠ [] → booking.eventID ≠ 1 →
        initPay (((getSeats db booking.id).map (fun s => s.price.getD 0)).sum)
            newOrderID = .ok resp →
        BookingsV1.initiatePayment db bookingID newOrderID initPay =
          .ok (bookingUpdate db { booking with
                  paymentStatus := "INITIATED"
                  paymentID := some resp.paymentID
                  orderID := some newOrderID
                  totalAmount := some (toString
                    (((getSeats db booking.id).map (fun s => s.price.getD 0)).sum)) },
               resp.paymentURL))
    ∧ (getSeats db booking.id ≠ [] → booking.eventID = 1 →
        BookingsV1.initiatePayment db bookingID newOrderID initPay =
          .ok (bookingUpdate db { booking with
                  status := "CONFIRMED"
                  paymentStatus := "COMPLETED"
                  totalAmount := some (toString
                    (((getSeats db booking.id).map (fun s => s.price.getD 0)).sum)) },
               "")) := by
  have hsum := foldl_price_sum (getSeats db booking.id) 0
  rw [zero_add] at hsum
  refine ⟨?_, ?_, ?_⟩
  · intro h
    unfold BookingsV1.initiatePayment
    rw [hfind]
    simp [h]
  · intro resp hne h1 hpay
    have hlen : ((getSeats db booking.id).length == 0) = false := by
      simp [List.length_eq_zero, hne]
    have h1b : (booking.eventID == 1) = false := by simp [h1]
    unfold BookingsV1.initiatePayment
    rw [hfind]
    simp only [hlen, Bool.false_eq_true, if_false, h1b, Bool.not_false, if_true, hsum, hpay]
  · intro hne h1
    have hlen : ((getSeats db booking.id).length == 0) = false := by
      simp [List.length_eq_zero, hne]
    have h1b : (booking.eventID == 1) = true := by simp [h1]
    unfold BookingsV1.initiatePayment
    rw [hfind]
    simp only [hlen, Bool.false_eq_true, if_false, h1b, Bool.not_true, hsum]

end Bulbul

namespace Bulbul

/-- A booking with two linked seats (prices 5000 and null) used to
instantiate the C5 theorem. -/
def c5db : DB :=
  { seats := [{ id := "a", eventID := 2, row := 1, number := 1,
                status := "RESERVED", price := some 5000 },
              { id := "b", eventID := 2, row := 1, number := 2,
                status := "RESERVED", price := none }],
    bookings := [{ id := 3, eventID := 2, userID := some 1, status := "CREATED",
                   paymentStatus := "PENDING", totalAmount := some "0",
                   paymentID := none, orderID := none, createdAt := 0 }],
    bookingSeats := [⟨3, "a"⟩, ⟨3, "b"⟩] }

/-- Witness for C5: booking 3 of event 2 with seat prices 5000 and null
pays total 5000; the gateway returns payment id "pay-1" and URL
"https://pay"; the booking row becomes INITIATED with total_amount "5000"
and the URL is returned. -/
theorem initiatePayment_correct_witness :
    BookingsV1.initiatePayment c5db 3 "ord-1"
        (fun _ _ => .ok ⟨"pay-1", "https://pay"⟩) =
      .ok (bookingUpdate c5db
          { id := 3, eventID := 2, userID := some 1, status := "CREATED",
            paymentStatus := "INITIATED", totalAmount := some "5000",
            paymentID := some "pay-1", orderID := some "ord-1", createdAt := 0 },
        "https://pay") := by
  have h := (initiatePayment_correct c5db 3
      { id := 3, eventID := 2, userID := some 1, status := "CREATED",
        paymentStatus := "PENDING", totalAmount := some "0", paymentID := none,
        orderID := none, createdAt := 0 } "ord-1"
      (fun _ _ => .ok ⟨"pay-1", "https://pay"⟩) (by decide)).2.1
      ⟨"pay-1", "https://pay"⟩ (by decide) (by decide) rfl
  exact h

/-- C6: with the event present in the index, `CreateBooking` for event 1
inserts a booking whose order_id is exactly the `StartOrder` identifier,
with status CONFIRMED and payment_status COMPLETED, and issues no
payment-gateway call; when `StartOrder` fails, nothing is inserted; for any
other event the inserted booking is CREATED / PENDING with total_amount
"0". -/
theorem create_correct (db : DB) (uid : Option Int)
    (startOrder : Except String String) (newID now : Int) :
    (∀ oid, startOrder = .ok oid →
      BookingsV1.create db 1 uid true startOrder newID now =
        .ok ({ db with bookings := db.bookings ++
            [{ id := newID, eventID := 1, userID := uid, status := "CONFIRMED",
               paymentStatus := "COMPLETED", totalAmount := some "0",
               paymentID := none, orderID := some oid, createdAt := now }] },
          newID, [ExtCall.startOrder]))
    ∧ (∀ e, startOrder = .error e →
      BookingsV1.create db 1 uid true startOrder newID now =
        .error ("failed to start external order: " ++ e))
    ∧ (∀ eventID : Int, eventID ≠ 1 →
      BookingsV1.create db eventID uid true startOrder newID now =
        .ok ({ db with bookings := db.bookings ++
            [{ id := newID, eventID := eventID, userID := uid, status := "CREATED",
               paymentStatus := "PENDING", totalAmount := some "0",
               paymentID := none, orderID := none, createdAt := now }] },
          newID, []))
    ∧ (∀ res, BookingsV1.create db 1 uid true startOrder newID now = .ok res →
        ExtCall.payInit ∉ res.2.2) := by
  refine ⟨?_, ?_, ?_, ?_⟩
  · intro oid h
    unfold BookingsV1.create
    rw [h]
    rfl
  · intro e h
    unfold BookingsV1.create
    rw [h]
    rfl
  · intro eventID h
    have hb : (eventID == 1) = false := by simp [h]
    unfold BookingsV1.create
    simp only [Bool.not_true, Bool.false_eq_true, if_false, hb]
    rfl
  · intro res hres
    cases hso : startOrder with
    | error e =>
      unfold BookingsV1.create at hres
      rw [hso] at hres
      simp at hres
    | ok oid =>
      unfold BookingsV1.create at hres
      rw [hso] at hres
      simp only [Bool.not_true, Bool.false_eq_true, if_false] at hres
      have hres2 := Except.ok.inj hres
      rw [← hres2]
      simp

/-- Witness for C6: creating a booking for event 1 with provider order
"ord-77" inserts the pre-confirmed row and records only the ticketing
call. -/
theorem create_correct_witness :
    BookingsV1.create c1db 1 (some 9) true (.ok "ord-77") 42 100 =
      .ok ({ c1db with bookings := c1db.bookings ++
          [{ id := 42, eventID := 1, userID := some 9, status := "CONFIRMED",
             paymentStatus := "COMPLETED", totalAmount := some "0",
             paymentID := none, orderID := some "ord-77", createdAt := 100 }] },
        42, [ExtCall.startOrder]) :=
  (create_correct c1db (some 9) (.ok "ord-77") 42 100).1 "ord-77" rfl

end Bulbul

namespace Bulbul.SeatsV1

/-- `SeatService.Select` (`src/internal/service/seats.go`, lines 96-131).
`uid` is the authenticated user carried in the Go request context; the
body never reads it - there is no ownership check and no cross-event
check.  `tkSelect` is `TicketingClient.SelectPlace` (place id, order id),
which does not touch the local database; the order id sent is the decimal
booking id (`strconv.FormatInt`). -/
def select (uid : Int) (db : DB) (bookingID : Int) (seatID : String)
    (tkSelect : String → String → Except String Unit) : Except String DB :=
  match findSeat db seatID with
  | none => .error "seat not found"
  | some seat =>
    if seat.eventID == 1 then
      match tkSelect seatID (toString bookingID) with
      | .error e => .error ("failed to select external place: " ++ e)
      | .ok _ => .ok db
    else
      match reserveSeat db seatID bookingID with
      | .error e => .error ("failed to reserve seat: " ++ e)
      | .ok db2 => .ok db2

/-- `SeatService.Release` (`src/internal/service/seats.go`, lines 160-218);
again `uid` is never read.  `tkRelease` is `TicketingClient.ReleasePlace`. -/
def release (uid : Int) (db : DB) (seatID : String)
    (tkRelease : String → Except String Unit) : Except String DB :=
  match findSeat db seatID with
  | none => .error "seat not found"
  | some seat =>
    if seat.eventID == 1 then
      match tkRelease seatID with
      | .error e => .error ("failed to release external place: " ++ e)
      | .ok _ => .ok db
    else
      .ok (releaseSeat db seatID)

end Bulbul.SeatsV1

namespace Bulbul.BookingsV1

/-- `BookingService.Cancel` (`src/internal/service/bookings.go`, lines
201-261).  `uid` is the authenticated user from the context; the function
never consults it.  Every linked seat is released (each release its own
transaction, failures logged and skipped; the embedded release never
fails), the best-effort `PaymentClient.CancelPayment` result is ignored,
then the booking row becomes CANCELLED / CANCELLED. -/
def cancel (uid : Int) (db : DB) (bookingID : Int) : Except String DB :=
  match findBooking db bookingID with
  | none => .error "booking not found"
  | some booking =>
    let seats := getSeats db booking.id
    let db1 := seats.foldl (fun d s => releaseSeat d s.id) db
    let b2 := { booking with status := "CANCELLED", paymentStatus := "CANCELLED" }
    .ok (bookingUpdate db1 b2)

end Bulbul.BookingsV1

namespace Bulbul.BookingsOwn

/-- `errors.ErrForbidden` (`src/unnamed/part_012`). -/
def errForbidden : String := "operation is forbidden for user"

/-- `errors.ErrUnauthorized` (`src/unnamed/part_012`). -/
def errUnauthorized : String := "user is not authorized"

/-- `BookingService.InitiatePayment` of the ownership-checking variant
(`src/unnamed/part_002`, lines 87-147): after loading the booking,
`booking.UserID == nil || *booking.UserID != userID` is `ErrForbidden` and
a missing context user `ErrUnauthorized`, both before any mutation; this
variant then pays through the gateway for every event, event 1 included. -/
def initiatePayment (uid : Option Int) (db : DB) (bookingID : Int)
    (newOrderID : String)
    (initPay : Int → String → Except String PaymentInitResp) :
    Except String (DB × String) :=
  match findBooking db bookingID with
  | none => .error "booking not found"
  | some booking =>
    match uid with
    | none => .error errUnauthorized
    | some u =>
      match booking.userID with
      | none => .error errForbidden
      | some ou =>
        if !(ou == u) then .error errForbidden
        else
          let seats := getSeats db booking.id
          if seats.length == 0 then .error "no seats in booking"
          else
            let totalAmount :=
              seats.foldl (fun a s => a + (match s.price with | some p => p | none => 0)) 0
            match initPay totalAmount newOrderID with
            | .error e => .error ("failed to initialize payment: " ++ e)
            | .ok resp =>
              let b2 := { booking with
                paymentStatus := "INITIATED"
                paymentID := some resp.paymentID
                orderID := some newOrderID
                totalAmount := some (toString totalAmount) }
              .ok (bookingUpdate db b2, resp.paymentURL)

/-- `BookingService.Cancel` of the ownership-checking variant
(`src/unnamed/part_002`, lines 149-203): the same owner check directly
after the load, then seat release, best-effort payment cancel (ignored)
and the CANCELLED / CANCELLED update. -/
def cancel (uid : Option Int) (db : DB) (bookingID : Int) : Except String DB :=
  match findBooking db bookingID with
  | none => .error "booking not found"
  | some booking =>
    match uid with
    | none => .error errUnauthorized
    | some u =>
      match booking.userID with
      | none => .error errForbidden
      | some ou =>
        if !(ou == u) then .error errForbidden
        else
          let seats := getSeats db booking.id
          let db1 := seats.foldl (fun d s => releaseSeat d s.id) db
          let b2 := { booking with status := "CANCELLED", paymentStatus := "CANCELLED" }
          .ok (bookingUpdate db1 b2)

end Bulbul.BookingsOwn

namespace Bulbul

/-- Booking 1 of event 2 belongs to user 1; seat "s1" of event 2 is FREE.
Used by the C3 counterexample. -/
def c3db : DB :=
  { seats := [{ id := "s1", eventID := 2, row := 1, number := 1,
                status := "FREE", price := some 100 }],
    bookings := [{ id := 1, eventID := 2, userID := some 1, status := "CREATED",
                   paymentStatus := "PENDING", totalAmount := some "0",
                   paymentID := none, orderID := none, createdAt := 0 }],
    bookingSeats := [] }

/-- C3 counterexample: booking 1 belongs to user 1, yet user 2's SelectSeat
at the cited implementation succeeds and mutates persisted state (seat
RESERVED, link inserted) instead of returning Forbidden with the state
unchanged. -/
theorem select_no_ownership_check :
    ((findBooking c3db 1).map Booking.userID = some (some 1))
    ∧ SeatsV1.select 2 c3db 1 "s1" (fun _ _ => .ok ()) =
        .ok { updateSeatStatus c3db "s1" "RESERVED" with bookingSeats := [⟨1, "s1"⟩] }
    ∧ { updateSeatStatus c3db "s1" "RESERVED" with
        bookingSeats := [⟨1, "s1"⟩] : DB } ≠ c3db := by
  exact ⟨rfl, rfl, by decide⟩

/-- C3 amended: the service operations cited by the claim consult the
authenticated user nowhere - `Select`, `Release` and the cited `Cancel`
return identical results for any caller - while in the ownership-checking
`BookingService` variant (`src/unnamed/part_002`) both `InitiatePayment`
and `Cancel` fail with `ErrForbidden` (mapped to 403), before any
mutation, whenever the authenticated user differs from `booking.user_id`. -/
theorem ownership_only_in_part002 (db : DB) (bookingID : Int) (seatID : String)
    (u1 u2 : Int) (tkSel : String → String → Except String Unit)
    (tkRel : String → Except String Unit) (newOrderID : String)
    (initPay : Int → String → Except String PaymentInitResp)
    (booking : Booking)
    (hfind : findBooking db bookingID = some booking) :
    (SeatsV1.select u1 db bookingID seatID tkSel =
      SeatsV1.select u2 db bookingID seatID tkSel)
    ∧ (SeatsV1.release u1 db seatID tkRel = SeatsV1.release u2 db seatID tkRel)
    ∧ (BookingsV1.cancel u1 db bookingID = BookingsV1.cancel u2 db bookingID)
    ∧ (∀ u, booking.userID ≠ some u →
        BookingsOwn.initiatePayment (some u) db bookingID newOrderID initPay =
          .error BookingsOwn.errForbidden)
    ∧ (∀ u, booking.userID ≠ some u →
        BookingsOwn.cancel (some u) db bookingID = .error BookingsOwn.errForbidden) := by
  refine ⟨rfl, rfl, rfl, ?_, ?_⟩
  · intro u hne
    cases hou : booking.userID with
    | none => simp [BookingsOwn.initiatePayment, hfind, hou]
    | some ou =>
      have hne2 : ¬ ou = u := fun he => hne (by rw [hou, he])
      simp [BookingsOwn.initiatePayment, hfind, hou, hne2]
  · intro u hne
    cases hou : booking.userID with
    | none => simp [BookingsOwn.cancel, hfind, hou]
    | some ou =>
      have hne2 : ¬ ou = u := fun he => hne (by rw [hou, he])
      simp [BookingsOwn.cancel, hfind, hou, hne2]

/-- Witness for the C3 amendment: user 2 against user-1's booking in `c3db`
gets ErrForbidden from the part_002 InitiatePayment and Cancel, and the
cited Select treats users 1 and 2 identically. -/
theorem ownership_only_in_part002_witness :
    (BookingsOwn.initiatePayment (some 2) c3db 1 "o" (fun _ _ => .error "x") =
      .error BookingsOwn.errForbidden)
    ∧ (BookingsOwn.cancel (some 2) c3db 1 = .error BookingsOwn.errForbidden)
    ∧ (SeatsV1.select 1 c3db 1 "s1" (fun _ _ => .ok ()) =
        SeatsV1.select 2 c3db 1 "s1" (fun _ _ => .ok ())) := by
  have h := ownership_only_in_part002 c3db 1 "s1" 1 2 (fun _ _ => .ok ())
      (fun _ => .ok ()) "o" (fun _ _ => .error "x")
      { id := 1, eventID := 2, userID := some 1, status := "CREATED",
        paymentStatus := "PENDING", totalAmount := some "0",
        paymentID := none, orderID := none, createdAt := 0 } (by decide)
  exact ⟨h.2.2.2.1 2 (by decide), h.2.2.2.2 2 (by decide), h.1⟩

end Bulbul

namespace Bulbul.SeatsV2

/-- `SeatService.Select` of the bookingRepo-aware variant
(`src/unnamed/part_000`, lines 83-136): the booking is loaded first;
bookings of event 1 go to the ticketing client with the booking's stored
order id (`selectExternalSeat` re-reads the same unchanged booking row);
otherwise the seat must exist and `seat.EventID != booking.EventID` is
rejected - "seat does not belong to the same event as the booking" -
before any reservation is attempted. -/
def select (db : DB) (bookingID : Int) (seatID : String)
    (tkSelect : String → String → Except String Unit) : Except String DB :=
  match findBooking db bookingID with
  | none => .error "booking not found"
  | some booking =>
    if booking.eventID == 1 then
      match booking.orderID with
      | none => .error "external booking must have order ID"
      | some oid =>
        match tkSelect seatID oid with
        | .error e => .error ("failed to select external place: " ++ e)
        | .ok _ => .ok db
    else
      match findSeat db seatID with
      | none => .error "seat not found"
      | some seat =>
        if !(seat.eventID == booking.eventID) then
          .error "seat does not belong to the same event as the booking"
        else
          match reserveSeat db seatID bookingID with
          | .error e => .error ("failed to reserve seat: " ++ e)
          | .ok db2 => .ok db2

end Bulbul.SeatsV2

namespace Bulbul

/-- Booking 1 of event 3 and FREE seat "s1" of event 2: a cross-event pair.
Used by the C4 counterexample. -/
def c4db : DB :=
  { seats := [{ id := "s1", eventID := 2, row := 1, number := 1,
                status := "FREE", price := some 100 }],
    bookings := [{ id := 1, eventID := 3, userID := some 1, status := "CREATED",
                   paymentStatus := "PENDING", totalAmount := some "0",
                   paymentID := none, orderID := none, createdAt := 0 }],
    bookingSeats := [] }

/-- C4 counterexample: seat "s1" (event 2) and booking 1 (event 3) both
exist with different event ids, yet the cited `SeatService.Select`
(`src/internal/service/seats.go`, lines 96-131) returns success and
reserves the seat - no Conflict, a reservation is made. -/
theorem select_cross_event_not_rejected :
    ((findSeat c4db "s1").map Seat.eventID = some 2)
    ∧ ((findBooking c4db 1).map Booking.eventID = some 3)
    ∧ SeatsV1.select 1 c4db 1 "s1" (fun _ _ => .ok ()) =
        .ok { updateSeatStatus c4db "s1" "RESERVED" with
              bookingSeats := [⟨1, "s1"⟩] } := by
  exact ⟨rfl, rfl, rfl⟩

/-- C4 amended: the cross-event check lives in the bookingRepo-aware
`SeatService` variant (`src/unnamed/part_000`): when booking and seat both
exist, the booking's event is not 1 and the event ids differ, `Select`
fails with "seat does not belong to the same event as the booking" (a
plain error - the boundary maps it to 500, there is no Conflict kind) and
commits no reservation; the variant cited by the claim makes no such check
and reserves the seat. -/
theorem select_cross_event_mismatch (db : DB) (bookingID : Int) (seatID : String)
    (tkSelect : String → String → Except String Unit)
    (booking : Booking) (seat : Seat)
    (hb : findBooking db bookingID = some booking)
    (hb1 : booking.eventID ≠ 1)
    (hs : findSeat db seatID = some seat)
    (hmm : seat.eventID ≠ booking.eventID) :
    SeatsV2.select db bookingID seatID tkSelect =
      .error "seat does not belong to the same event as the booking" := by
  simp [SeatsV2.select, hb, hb1, hs, hmm]

/-- Witness for the C4 amendment at `c4db`: the part_000 variant rejects
the event-2 seat against the event-3 booking. -/
theorem select_cross_event_mismatch_witness :
    SeatsV2.select c4db 1 "s1" (fun _ _ => .ok ()) =
      .error "seat does not belong to the same event as the booking" := by
  have h := select_cross_event_mismatch c4db 1 "s1" (fun _ _ => .ok ())
      { id := 1, eventID := 3, userID := some 1, status := "CREATED",
        paymentStatus := "PENDING", totalAmount := some "0",
        paymentID := none, orderID := none, createdAt := 0 }
      { id := "s1", eventID := 2, row := 1, number := 1,
        status := "FREE", price := some 100 }
      (by decide) (by decide) (by decide) (by decide)
  exact h

end Bulbul

namespace Bulbul

/-- `models.PaymentCompletedEvent` (`src/internal/models/events.go`):
booking_id, payment_id, order_id (the timestamp is not modelled). -/
structure PaymentCompletedEvent where
  bookingID : Int
  paymentID : String
  orderID   : String
deriving Repr, DecidableEq

/-- `models.PaymentFailedEvent` (`src/internal/models/events.go`). -/
structure PaymentFailedEvent where
  bookingID : Int
  paymentID : String
  orderID   : String
  reason    : String
deriving Repr, DecidableEq

/-- A message published on the bus by the payment-notification webhook. -/
inductive PubMsg
  | completed (ev : PaymentCompletedEvent)
  | failed (ev : PaymentFailedEvent)
deriving Repr, DecidableEq

end Bulbul

namespace Bulbul.BookingsV1

/-- `BookingService.HandlePaymentNotification`
(`src/internal/service/bookings.go`, lines 263-304).  The Go code builds
`PaymentCompletedEvent` / `PaymentFailedEvent` literals assigning only
`PaymentID` (and `Reason`/`Timestamp`); `BookingID` and `OrderID` are
never assigned and keep their Go zero values 0 and "".  No booking lookup
happens - the webhook only publishes and returns nil. -/
def handlePaymentNotification (paymentID status : String) : List PubMsg :=
  if status == "completed" || status == "CONFIRMED" then
    [.completed { bookingID := 0, paymentID := paymentID, orderID := "" }]
  else if status == "failed" || status == "REJECTED" || status == "CANCELLED" then
    [.failed { bookingID := 0, paymentID := paymentID, orderID := "", reason := status }]
  else []

end Bulbul.BookingsV1

namespace Bulbul.Consumers

/-- `Handlers.HandlePaymentCompleted` (`src/internal/consumers/handlers.go`,
lines 74-124): the booking is looked up by the event's `booking_id`; when
found it becomes CONFIRMED / COMPLETED and every linked seat SOLD (for
event 1 additionally a best-effort `ConfirmOrder(event.order_id)` on the
ticketing client, which changes no local state); when no booking matches,
the message is acked with no change. -/
def handlePaymentCompleted (db : DB) (ev : PaymentCompletedEvent) : DB :=
  match findBooking db ev.bookingID with
  | none => db
  | some booking =>
    let db1 := bookingUpdate db
      { booking with status := "CONFIRMED", paymentStatus := "COMPLETED" }
    let seats := getSeats db1 booking.id
    seats.foldl (fun d s => updateSeatStatus d s.id "SOLD") db1

/-- Deliver a batch of published messages to the `payment.completed`
consumer (messages of other subjects go to other handlers). -/
def consumeCompleted (db : DB) (msgs : List PubMsg) : DB :=
  msgs.foldl (fun d m => match m with
    | .completed ev => handlePaymentCompleted d ev
    | .failed _ => d) db

end Bulbul.Consumers

namespace Bulbul

/-- Booking 5 (event 2, payment id "p1") with RESERVED linked seat "s9",
awaiting payment: the state in which the gateway reports success.  Used by
the C2 failing-input evaluation. -/
def c2db : DB :=
  { seats := [{ id := "s9", eventID := 2, row := 1, number := 1,
                status := "RESERVED", price := some 5000 }],
    bookings := [{ id := 5, eventID := 2, userID := some 1, status := "CREATED",
                   paymentStatus := "PENDING", totalAmount := some "5000",
                   paymentID := some "p1", orderID := some "ord-5", createdAt := 0 }],
    bookingSeats := [⟨5, "s9"⟩] }

/-- C2 (code bug, evaluated at the failing input): the webhook for payment
"p1" of booking 5 publishes `payment.completed` with booking_id 0 - it
never resolves the booking - so the consumer, which looks up by that
booking_id, finds nothing and the delivery (once, and hence any number of
times, the state coming back unchanged) leaves booking 5 CREATED / PENDING
and seat "s9" RESERVED, not CONFIRMED / COMPLETED / SOLD. -/
theorem paymentNotification_unresolved_booking_id :
    (BookingsV1.handlePaymentNotification "p1" "completed" =
      [.completed { bookingID := 0, paymentID := "p1", orderID := "" }])
    ∧ Consumers.consumeCompleted c2db
        (BookingsV1.handlePaymentNotification "p1" "completed") = c2db
    ∧ Consumers.consumeCompleted c2db
        (BookingsV1.handlePaymentNotification "p1" "completed" ++
          BookingsV1.handlePaymentNotification "p1" "completed") = c2db
    ∧ (findBooking c2db 5).map Booking.status = some "CREATED"
    ∧ (findSeat c2db "s9").map Seat.status = some "RESERVED" := by
  exact ⟨rfl, rfl, rfl, rfl, rfl⟩

end Bulbul

namespace Bulbul.Handlers

/-- `models.ListEventsResponseItem` (`src/internal/models/events.go`). -/
structure EventItem where
  id    : Int
  title : String
deriving Repr, DecidableEq

/-- The outcome of `Handlers.ListEvents`: a 400, a cache-hit body streamed
verbatim (`c.Data`), a freshly encoded store response (`c.JSON`), or a
500. -/
inductive EventsResult
  | badRequest (msg : String)
  | okRaw (body : String)
  | okJSON (items : List EventItem)
  | serverError
deriving Repr, DecidableEq

/-- The cache operations a request performed: raw-body reads
(`GetEventsListRaw`) and response writes (`SetEventsList`), keyed by
(page, pageSize). -/
structure CacheTrace where
  reads  : List (Int × Int)
  writes : List ((Int × Int) × List EventItem)
deriving Repr, DecidableEq

/-- `Handlers.shouldCacheEventsRequest` (`src/internal/handlers/handlers.go`,
lines 112-120): no caching with a query or date filter; otherwise cache
exactly the page sizes divisible by 5. -/
def shouldCacheEventsRequest (query date : String) (pageSize : Int) : Bool :=
  if !(query == "") || !(date == "") then false
  else pageSize % 5 == 0

/-- `Handlers.ListEvents` (`src/internal/handlers/handlers.go`, lines
53-109), for a request reaching the handler with the cache client
configured.  `cacheGet` is `ValkeyClient.GetEventsListRaw` - `none` is a
redis-nil miss or any cache error, which the Go code treats identically
(`err == nil` is the only hit test); `store` is the `Events.List` service
call.  A hit streams the stored bytes back verbatim; a fresh response is
written back when cacheable (the write error, if any, is swallowed). -/
def listEvents (query date : String) (page pageSize : Int)
    (cacheGet : Int × Int → Option String)
    (store : Except String (List EventItem)) :
    EventsResult × CacheTrace :=
  if decide (page < 1) then (.badRequest "page must be >= 1", ⟨[], []⟩)
  else if decide (pageSize < 1) || decide (20 < pageSize) then
    (.badRequest "pageSize must be between 1 and 20", ⟨[], []⟩)
  else if shouldCacheEventsRequest query date pageSize then
    match cacheGet (page, pageSize) with
    | some raw => (.okRaw raw, ⟨[(page, pageSize)], []⟩)
    | none =>
      match store with
      | .error _ => (.serverError, ⟨[(page, pageSize)], []⟩)
      | .ok items =>
        (.okJSON items, ⟨[(page, pageSize)], [((page, pageSize), items)]⟩)
  else
    match store with
    | .error _ => (.serverError, ⟨[], []⟩)
    | .ok items => (.okJSON items, ⟨[], []⟩)

end Bulbul.Handlers

namespace Bulbul

/-- C8: for a validated request (1 ≤ page, 1 ≤ pageSize ≤ 20) the events
listing touches the cache - consulting it, and populating it on a fresh
response - exactly when query and date are empty and pageSize is a
multiple of 5; a hit returns the stored body byte for byte with no
re-encoding; on a miss or any cache error (both a failed read) the
response still comes from the store / search index. -/
theorem listEvents_cache_policy (query date : String) (page pageSize : Int)
    (cacheGet : Int × Int → Option String)
    (store : Except String (List Handlers.EventItem))
    (hpage : 1 ≤ page) (hsize1 : 1 ≤ pageSize) (hsize2 : pageSize ≤ 20) :
    (Handlers.shouldCacheEventsRequest query date pageSize =
      (query == "" && date == "" && pageSize % 5 == 0))
    ∧ (((Handlers.listEvents query date page pageSize cacheGet store).2.reads ≠ []
        ∨ (Handlers.listEvents query date page pageSize cacheGet store).2.writes ≠ [])
        ↔ (query = "" ∧ date = "" ∧ pageSize % 5 = 0))
    ∧ (∀ raw, Handlers.shouldCacheEventsRequest query date pageSize = true →
        cacheGet (page, pageSize) = some raw →
        Handlers.listEvents query date page pageSize cacheGet store =
          (.okRaw raw, ⟨[(page, pageSize)], []⟩))
    ∧ (∀ items, cacheGet (page, pageSize) = none → store = .ok items →
        (Handlers.listEvents query date page pageSize cacheGet store).1 =
          .okJSON items) := by
  have hv1 : decide (page < 1) = false := by
    simp only [decide_eq_false_iff_not, not_lt]
    exact hpage
  have hv2 : (decide (pageSize < 1) || decide (20 < pageSize)) = false := by
    simp only [Bool.or_eq_false_iff, decide_eq_false_iff_not, not_lt]
    exact ⟨hsize1, hsize2⟩
  have hsc : Handlers.shouldCacheEventsRequest query date pageSize =
      (query == "" && date == "" && pageSize % 5 == 0) := by
    by_cases hq : query = "" <;> by_cases hd : date = "" <;>
      simp [Handlers.shouldCacheEventsRequest, hq, hd]
  have hsciff : Handlers.shouldCacheEventsRequest query date pageSize = true ↔
      (query = "" ∧ date = "" ∧ pageSize % 5 = 0) := by
    rw [hsc]
    simp [and_assoc]
  have hbase : Handlers.listEvents query date page pageSize cacheGet store =
      (if Handlers.shouldCacheEventsRequest query date pageSize then
        match cacheGet (page, pageSize) with
        | some raw => (.okRaw raw, ⟨[(page, pageSize)], []⟩)
        | none =>
          match store with
          | .error _ => (.serverError, ⟨[(page, pageSize)], []⟩)
          | .ok items =>
            (.okJSON items, ⟨[(page, pageSize)], [((page, pageSize), items)]⟩)
      else
        match store with
        | .error _ => (.serverError, ⟨[], []⟩)
        | .ok items => (.okJSON items, ⟨[], []⟩)) := by
    unfold Handlers.listEvents
    rw [hv1, hv2]
    simp only [Bool.false_eq_true, if_false]
  refine ⟨hsc, ?_, ?_, ?_⟩
  · by_cases hb : Handlers.shouldCacheEventsRequest query date pageSize = true
    · have hcond := hsciff.mp hb
      have hreads : (Handlers.listEvents query date page pageSize cacheGet store).2.reads
          = [(page, pageSize)] := by
        rw [hbase, hb]
        cases cacheGet (page, pageSize) with
        | some raw => simp
        | none => cases store <;> simp
      rw [hreads]
      simp [hcond]
    · have hb2 : Handlers.shouldCacheEventsRequest query date pageSize = false := by
        simpa using hb
      have hcond : ¬(query = "" ∧ date = "" ∧ pageSize % 5 = 0) := fun hc =>
        hb (hsciff.mpr hc)
      have hrw : (Handlers.listEvents query date page pageSize cacheGet store).2.reads = []
          ∧ (Handlers.listEvents query date page pageSize cacheGet store).2.writes = [] := by
        rw [hbase, hb2]
        cases store <;> simp
      rw [hrw.1, hrw.2]
      constructor
      · rintro (h | h) <;> exact absurd rfl h
      · intro h
        exact absurd h hcond
  · intro raw hb hget
    rw [hbase, hb, hget]
    simp
  · intro items hget hstore
    by_cases hb : Handlers.shouldCacheEventsRequest query date pageSize = true
    · rw [hbase, hb, hget, hstore]
      simp
    · have hb2 : Handlers.shouldCacheEventsRequest query date pageSize = false := by
        simpa using hb
      rw [hbase, hb2, hstore]
      simp

/-- Witness for C8 at the spec's own scenarios: `pageSize=10` with empty
query/date is served from the cache verbatim on a hit and from the store
on a miss; `query="foo"` with `pageSize=10` and the empty-query
`pageSize=7` request touch no cache. -/
theorem listEvents_cache_policy_witness :
    (Handlers.listEvents "" "" 1 10 (fun _ => some "[cached]") (.ok []) =
      (.okRaw "[cached]", ⟨[(1, 10)], []⟩))
    ∧ ((Handlers.listEvents "" "" 1 10 (fun _ => none)
        (.ok [⟨1, "t"⟩])).1 = .okJSON [⟨1, "t"⟩])
    ∧ ¬((Handlers.listEvents "foo" "" 1 10 (fun _ => none) (.ok [])).2.reads ≠ []
        ∨ (Handlers.listEvents "foo" "" 1 10 (fun _ => none) (.ok [])).2.writes ≠ [])
    ∧ ¬((Handlers.listEvents "" "" 1 7 (fun _ => none) (.ok [])).2.reads ≠ []
        ∨ (Handlers.listEvents "" "" 1 7 (fun _ => none) (.ok [])).2.writes ≠ []) := by
  refine ⟨?_, ?_, ?_, ?_⟩
  · exact (listEvents_cache_policy "" "" 1 10 (fun _ => some "[cached]") (.ok [])
      (by decide) (by decide) (by decide)).2.2.1 "[cached]" (by decide) rfl
  · exact (listEvents_cache_policy "" "" 1 10 (fun _ => none) (.ok [⟨1, "t"⟩])
      (by decide) (by decide) (by decide)).2.2.2 [⟨1, "t"⟩] rfl rfl
  · intro h
    exact absurd ((listEvents_cache_policy "foo" "" 1 10 (fun _ => none) (.ok [])
      (by decide) (by decide) (by decide)).2.1.mp h).1 (by decide)
  · intro h
    exact absurd ((listEvents_cache_policy "" "" 1 7 (fun _ => none) (.ok [])
      (by decide) (by decide) (by decide)).2.1.mp h).2.2 (by decide)

end Bulbul

namespace Bulbul

/-- `BookingExpirationTimeout = 15 * time.Minute`
(`src/cmd/consumers/main.go`), in seconds. -/
def bookingExpirationTimeout : Int := 15 * 60

/-- The tick period of the expiration job (`time.NewTicker(30 *
time.Second)`), in seconds; the job itself is a per-tick state
transformer. -/
def expirerTickSeconds : Int := 30

/-- The WHERE clause of `GetExpiredBookings`: status CREATED, payment
PENDING, created strictly before the cutoff. -/
def expiredPred (cutoff : Int) (b : Booking) : Bool :=
  b.status == "CREATED" && b.paymentStatus == "PENDING" && decide (b.createdAt < cutoff)

def insertByCreated (b : Booking) : List Booking → List Booking
  | [] => [b]
  | c :: cs =>
    if decide (b.createdAt ≤ c.createdAt) then b :: c :: cs
    else c :: insertByCreated b cs

/-- Insertion sort implementing the query's `ORDER BY created_at ASC`
(SQL leaves ties in arbitrary order; this picks one). -/
def sortByCreated : List Booking → List Booking
  | [] => []
  | b :: bs => insertByCreated b (sortByCreated bs)

/-- `BookingRepository.GetExpiredBookings` (`src/unnamed/part_004`, lines
204-243). -/
def getExpiredBookings (db : DB) (cutoff : Int) : List Booking :=
  sortByCreated (db.bookings.filter (expiredPred cutoff))

/-- The seat-release loop of `expireBooking` (each release its own
transaction; the embedded release always succeeds, matching the
best-effort semantics). -/
def releaseMany (db : DB) : List String → DB
  | [] => db
  | sid :: sids => releaseMany (releaseSeat db sid) sids

/-- `BookingExpirationJob.expireBooking` (`src/cmd/consumers/main.go`,
lines 150-200): release every linked seat, then set the booking row
CANCELLED / CANCELLED; the `booking.expired` publication is recorded by
the caller. -/
def expireBooking (db : DB) (b : Booking) : DB :=
  let db1 := releaseMany db ((getSeats db b.id).map (fun s => s.id))
  bookingUpdate db1 { b with status := "CANCELLED", paymentStatus := "CANCELLED" }

/-- The per-booking loop of `checkExpiredBookings`; the second component
lists the booking ids for which `booking.expired` was published, in
processing order. -/
def expireAll (db : DB) : List Booking → DB × List Int
  | [] => (db, [])
  | b :: bs =>
    let r := expireAll (expireBooking db b) bs
    (r.1, b.id :: r.2)

/-- `BookingExpirationJob.checkExpiredBookings` (`src/cmd/consumers/main.go`,
lines 116-148): one tick at time `now`. -/
def checkExpiredBookings (db : DB) (now : Int) : DB × List Int :=
  expireAll db (getExpiredBookings db (now - bookingExpirationTimeout))

theorem insertByCreated_perm (b : Booking) :
    ∀ l : List Booking, (insertByCreated b l).Perm (b :: l) := by
  intro l
  induction l with
  | nil => simp [insertByCreated]
  | cons c cs ih =>
    by_cases h : b.createdAt ≤ c.createdAt
    · simp [insertByCreated, h]
    · simp only [insertByCreated, decide_eq_true_eq, if_neg h]
      exact (ih.cons c).trans (List.Perm.swap b c cs)

theorem sortByCreated_perm : ∀ l : List Booking, (sortByCreated l).Perm l := by
  intro l
  induction l with
  | nil => simp [sortByCreated]
  | cons b bs ih =>
    exact (insertByCreated_perm b (sortByCreated bs)).trans (ih.cons b)

theorem insertByCreated_sorted (b : Booking) (l : List Booking)
    (h : l.Pairwise (fun x y => x.createdAt ≤ y.createdAt)) :
    (insertByCreated b l).Pairwise (fun x y => x.createdAt ≤ y.createdAt) := by
  induction l with
  | nil => simp [insertByCreated]
  | cons c cs ih =>
    rcases List.pairwise_cons.mp h with ⟨hc, hcs⟩
    by_cases hbc : b.createdAt ≤ c.createdAt
    · simp only [insertByCreated, decide_eq_true_eq, if_pos hbc]
      refine List.pairwise_cons.mpr ⟨?_, h⟩
      intro z hz
      rcases List.mem_cons.mp hz with hz | hz
      · subst hz; exact hbc
      · exact le_trans hbc (hc z hz)
    · simp only [insertByCreated, decide_eq_true_eq, if_neg hbc]
      refine List.pairwise_cons.mpr ⟨?_, ih hcs⟩
      intro z hz
      have hz2 := (insertByCreated_perm b cs).mem_iff.mp hz
      rcases List.mem_cons.mp hz2 with hz2 | hz2
      · subst hz2; exact le_of_not_le hbc
      · exact hc z hz2

theorem sortByCreated_sorted :
    ∀ l : List Booking,
      (sortByCreated l).Pairwise (fun x y => x.createdAt ≤ y.createdAt) := by
  intro l
  induction l with
  | nil => simp [sortByCreated]
  | cons b bs ih => exact insertByCreated_sorted b (sortByCreated bs) ih

/-- Membership in the expired-bookings query is exactly the claim's
predicate. -/
theorem mem_getExpiredBookings (db : DB) (cutoff : Int) (b : Booking) :
    b ∈ getExpiredBookings db cutoff ↔
      (b ∈ db.bookings ∧ b.status = "CREATED" ∧ b.paymentStatus = "PENDING"
        ∧ b.createdAt < cutoff) := by
  unfold getExpiredBookings
  rw [(sortByCreated_perm _).mem_iff, List.mem_filter]
  simp [expiredPred, and_assoc]

end Bulbul

namespace Bulbul

theorem bookings_releaseMany : ∀ (sids : List String) (db : DB),
    (releaseMany db sids).bookings = db.bookings := by
  intro sids
  induction sids with
  | nil => intro db; rfl
  | cons sid rest ih => intro db; exact ih (releaseSeat db sid)

theorem findBooking_releaseMany (sids : List String) (db : DB) (x : Int) :
    findBooking (releaseMany db sids) x = findBooking db x := by
  unfold findBooking
  rw [bookings_releaseMany]

/-- Updating a booking commutes with row lookup, rewriting the found row
when the id matches. -/
theorem findBooking_bookingUpdate (db : DB) (b : Booking) (x : Int) :
    findBooking (bookingUpdate db b) x =
      (findBooking db x).map (fun r =>
        if r.id == b.id then
          { r with status := b.status, paymentStatus := b.paymentStatus,
                   totalAmount := b.totalAmount, paymentID := b.paymentID,
                   orderID := b.orderID }
        else r) := by
  have hp : ((fun r : Booking => r.id == x) ∘ fun r : Booking =>
      if r.id == b.id then
        { r with status := b.status, paymentStatus := b.paymentStatus,
                 totalAmount := b.totalAmount, paymentID := b.paymentID,
                 orderID := b.orderID }
      else r) = fun r : Booking => r.id == x := by
    funext r
    by_cases h : r.id == b.id <;> simp [h, Function.comp]
  simp only [findBooking, bookingUpdate, List.find?_map, hp]

theorem expireBooking_findBooking_ne (db : DB) (b : Booking) (x : Int)
    (h : x ≠ b.id) :
    findBooking (expireBooking db b) x = findBooking db x := by
  unfold expireBooking
  rw [findBooking_bookingUpdate, findBooking_releaseMany]
  cases hf : findBooking db x with
  | none => rfl
  | some r =>
    have hr : (r.id == b.id) = false := by
      have hrx : r.id = x := by
        have h0 : db.bookings.find? (fun rr => rr.id == x) = some r := hf
        have := List.find?_some h0
        simpa using this
      simp [hrx, h]
    simp only [Option.map_some', hr, Bool.false_eq_true, if_false]

theorem expireBooking_findBooking_self (db : DB) (b : Booking)
    (hf : findBooking db b.id = some b) :
    findBooking (expireBooking db b) b.id =
      some { b with status := "CANCELLED", paymentStatus := "CANCELLED" } := by
  unfold expireBooking
  rw [findBooking_bookingUpdate, findBooking_releaseMany, hf]
  simp

/-- After the sweep has dealt with a seat: its row (wherever it sits in the
table) is FREE and no `booking_seats` row references it. -/
def SeatFreed (db : DB) (sid : String) : Prop :=
  (∀ s ∈ db.seats, s.id = sid → s.status = "FREE")
    ∧ ∀ bs ∈ db.bookingSeats, bs.seatID ≠ sid

theorem seatFreed_release_self (db : DB) (sid : String) :
    SeatFreed (releaseSeat db sid) sid := by
  constructor
  · intro s hs hsid
    rcases List.mem_map.mp hs with ⟨t, ht, hte⟩
    by_cases h : (t.id == sid) = true
    · rw [← hte, if_pos h]
    · rw [← hte, if_neg h] at hsid
      exact absurd (by simp [hsid]) h
  · intro bs hbs
    have h2 := (List.mem_filter.mp hbs).2
    simpa using h2

theorem seatFreed_release_mono (db : DB) (sid sid2 : String)
    (h : SeatFreed db sid) : SeatFreed (releaseSeat db sid2) sid := by
  constructor
  · intro s hs hsid
    rcases List.mem_map.mp hs with ⟨t, ht, hte⟩
    by_cases h2 : (t.id == sid2) = true
    · rw [← hte, if_pos h2]
    · rw [← hte, if_neg h2] at hsid ⊢
      exact h.1 t ht hsid
  · intro bs hbs
    exact h.2 bs (List.mem_filter.mp hbs).1

theorem seatFreed_update_mono (db : DB) (b : Booking) (sid : String)
    (h : SeatFreed db sid) : SeatFreed (bookingUpdate db b) sid := h

theorem seatFreed_releaseMany_mono : ∀ (sids : List String) (db : DB) (sid : String),
    SeatFreed db sid → SeatFreed (releaseMany db sids) sid := by
  intro sids
  induction sids with
  | nil => intro db sid h; exact h
  | cons s rest ih =>
    intro db sid h
    exact ih (releaseSeat db s) sid (seatFreed_release_mono db sid s h)

theorem seatFreed_releaseMany_mem : ∀ (sids : List String) (db : DB) (sid : String),
    sid ∈ sids → SeatFreed (releaseMany db sids) sid := by
  intro sids
  induction sids with
  | nil => intro db sid h; cases h
  | cons s rest ih =>
    intro db sid h
    rcases List.mem_cons.mp h with h | h
    · subst h
      exact seatFreed_releaseMany_mono rest _ sid (seatFreed_release_self db sid)
    · exact ih (releaseSeat db s) sid h

theorem seatFreed_expire_mono (db : DB) (b : Booking) (sid : String)
    (h : SeatFreed db sid) : SeatFreed (expireBooking db b) sid :=
  seatFreed_update_mono _ _ _ (seatFreed_releaseMany_mono _ _ _ h)

theorem seatFreed_expireAll_mono : ∀ (L : List Booking) (db : DB) (sid : String),
    SeatFreed db sid → SeatFreed (expireAll db L).1 sid := by
  intro L
  induction L with
  | nil => intro db sid h; exact h
  | cons b rest ih =>
    intro db sid h
    exact ih (expireBooking db b) sid (seatFreed_expire_mono db b sid h)

end Bulbul

namespace Bulbul

/-- Referential integrity of `booking_seats.seat_id` (the schema's foreign
key into `seats`): every link references an existing seat row. -/
def RefInt (db : DB) : Prop :=
  ∀ bs ∈ db.bookingSeats, ∃ s ∈ db.seats, s.id = bs.seatID

theorem refInt_release (db : DB) (sid : String) (h : RefInt db) :
    RefInt (releaseSeat db sid) := by
  intro bs hbs
  rcases h bs (List.mem_filter.mp hbs).1 with ⟨s, hs, hsid⟩
  refine ⟨if s.id == sid then { s with status := "FREE" } else s,
    List.mem_map.mpr ⟨s, hs, rfl⟩, ?_⟩
  by_cases h2 : (s.id == sid) = true
  · rw [if_pos h2]; exact hsid
  · rw [if_neg h2]; exact hsid

theorem refInt_update (db : DB) (b : Booking) (h : RefInt db) :
    RefInt (bookingUpdate db b) := h

theorem refInt_releaseMany : ∀ (sids : List String) (db : DB),
    RefInt db → RefInt (releaseMany db sids) := by
  intro sids
  induction sids with
  | nil => intro db h; exact h
  | cons s rest ih => intro db h; exact ih (releaseSeat db s) (refInt_release db s h)

theorem refInt_expire (db : DB) (b : Booking) (h : RefInt db) :
    RefInt (expireBooking db b) :=
  refInt_update _ _ (refInt_releaseMany _ db h)

theorem link_release (db : DB) (sid : String) (bs : BookingSeat)
    (h : bs ∈ db.bookingSeats) :
    bs ∈ (releaseSeat db sid).bookingSeats
      ∨ SeatFreed (releaseSeat db sid) bs.seatID := by
  by_cases h2 : bs.seatID = sid
  · right
    rw [h2]
    exact seatFreed_release_self db sid
  · left
    exact List.mem_filter.mpr ⟨h, by simp [h2]⟩

theorem link_releaseMany : ∀ (sids : List String) (db : DB) (bs : BookingSeat),
    bs ∈ db.bookingSeats →
    bs ∈ (releaseMany db sids).bookingSeats
      ∨ SeatFreed (releaseMany db sids) bs.seatID := by
  intro sids
  induction sids with
  | nil => intro db bs h; exact Or.inl h
  | cons s rest ih =>
    intro db bs h
    rcases link_release db s bs h with h2 | h2
    · exact ih (releaseSeat db s) bs h2
    · exact Or.inr (seatFreed_releaseMany_mono rest _ _ h2)

theorem link_expire (db : DB) (b : Booking) (bs : BookingSeat)
    (h : bs ∈ db.bookingSeats) :
    bs ∈ (expireBooking db b).bookingSeats
      ∨ SeatFreed (expireBooking db b) bs.seatID :=
  link_releaseMany _ db bs h

theorem seatID_mem_getSeats (db : DB) (b : Booking) (bs : BookingSeat)
    (hri : RefInt db) (hbs : bs ∈ db.bookingSeats) (hbid : bs.bookingID = b.id) :
    bs.seatID ∈ (getSeats db b.id).map (fun s => s.id) := by
  have hfilter : bs ∈ db.bookingSeats.filter (fun l => l.bookingID == b.id) :=
    List.mem_filter.mpr ⟨hbs, by simp [hbid]⟩
  rcases hri bs hbs with ⟨s, hs, hsid⟩
  have hsome : (db.seats.find? (fun t => t.id == bs.seatID)).isSome := by
    rw [List.find?_isSome]
    exact ⟨s, hs, by simp [hsid]⟩
  rcases Option.isSome_iff_exists.mp hsome with ⟨s0, hs0⟩
  have hs0id : s0.id = bs.seatID := by
    have hpred := List.find?_some hs0
    simpa using hpred
  exact List.mem_map.mpr ⟨s0, List.mem_filterMap.mpr ⟨bs, hfilter, hs0⟩, hs0id⟩

theorem expireBooking_seatFreed (db : DB) (b : Booking) (bs : BookingSeat)
    (hri : RefInt db) (hbs : bs ∈ db.bookingSeats) (hbid : bs.bookingID = b.id) :
    SeatFreed (expireBooking db b) bs.seatID :=
  seatFreed_update_mono _ _ _
    (seatFreed_releaseMany_mem _ db bs.seatID (seatID_mem_getSeats db b bs hri hbs hbid))

end Bulbul

namespace Bulbul

theorem expireAll_published : ∀ (L : List Booking) (db : DB),
    (expireAll db L).2 = L.map (fun b => b.id) := by
  intro L
  induction L with
  | nil => intro db; rfl
  | cons b rest ih => intro db; simp [expireAll, ih]

theorem expireAll_findBooking_ne : ∀ (L : List Booking) (db : DB) (x : Int),
    (∀ b ∈ L, b.id ≠ x) →
    findBooking (expireAll db L).1 x = findBooking db x := by
  intro L
  induction L with
  | nil => intro db x _; rfl
  | cons b rest ih =>
    intro db x h
    have h1 : x ≠ b.id := fun he => h b (List.mem_cons_self b rest) he.symm
    show findBooking (expireAll (expireBooking db b) rest).1 x = findBooking db x
    rw [ih (expireBooking db b) x (fun c hc => h c (List.mem_cons_of_mem b hc))]
    exact expireBooking_findBooking_ne db b x h1

theorem findBooking_of_nodup : ∀ (l : List Booking) (b : Booking),
    (l.map (fun r => r.id)).Nodup → b ∈ l →
    l.find? (fun r => r.id == b.id) = some b := by
  intro l
  induction l with
  | nil => intro b _ hb; cases hb
  | cons c rest ih =>
    intro b hnd hb
    have hnd2 : c.id ∉ rest.map (fun r => r.id) ∧ (rest.map (fun r => r.id)).Nodup := by
      rw [List.map_cons, List.nodup_cons] at hnd
      exact hnd
    rcases List.mem_cons.mp hb with hb | hb
    · subst hb
      simp [List.find?_cons_of_pos]
    · have hc : (c.id == b.id) = false := by
        simp only [beq_eq_false_iff_ne]
        intro he
        exact hnd2.1 (he ▸ List.mem_map.mpr ⟨b, hb, rfl⟩)
      rw [List.find?_cons_of_neg _ (by simp [hc])]
      exact ih b hnd2.2 hb

theorem mem_id_inj (l : List Booking) (hnd : (l.map (fun r => r.id)).Nodup)
    (b c : Booking) (hb : b ∈ l) (hc : c ∈ l) (he : b.id = c.id) : b = c := by
  have h1 := findBooking_of_nodup l b hnd hb
  have h2 := findBooking_of_nodup l c hnd hc
  rw [he] at h1
  rw [h1] at h2
  exact Option.some.inj h2

theorem expireAll_cancelled : ∀ (L : List Booking) (db : DB),
    (L.map (fun b => b.id)).Nodup →
    (∀ b ∈ L, findBooking db b.id = some b) →
    ∀ b ∈ L, findBooking (expireAll db L).1 b.id =
      some { b with status := "CANCELLED", paymentStatus := "CANCELLED" } := by
  intro L
  induction L with
  | nil => intro db _ _ b hb; cases hb
  | cons c rest ih =>
    intro db hnd hfind b hb
    have hnd2 : c.id ∉ rest.map (fun b => b.id) ∧ (rest.map (fun b => b.id)).Nodup := by
      rw [List.map_cons, List.nodup_cons] at hnd
      exact hnd
    rcases List.mem_cons.mp hb with hb | hb
    · subst hb
      show findBooking (expireAll (expireBooking db b) rest).1 b.id = _
      rw [expireAll_findBooking_ne rest (expireBooking db b) b.id
        (fun d hd he => hnd2.1 (he ▸ List.mem_map.mpr ⟨d, hd, rfl⟩))]
      exact expireBooking_findBooking_self db b (hfind b (List.mem_cons_self b rest))
    · show findBooking (expireAll (expireBooking db c) rest).1 b.id = _
      refine ih (expireBooking db c) hnd2.2 ?_ b hb
      intro d hd
      have hdc : d.id ≠ c.id := fun he =>
        hnd2.1 (he ▸ List.mem_map.mpr ⟨d, hd, rfl⟩)
      rw [expireBooking_findBooking_ne db c d.id hdc]
      exact hfind d (List.mem_cons_of_mem c hd)

theorem expireAll_seatFreed (links0 : List BookingSeat) :
    ∀ (L : List Booking) (db : DB),
      RefInt db →
      (∀ l ∈ links0, l ∈ db.bookingSeats ∨ SeatFreed db l.seatID) →
      ∀ b ∈ L, ∀ bs ∈ links0, bs.bookingID = b.id →
        SeatFreed (expireAll db L).1 bs.seatID := by
  intro L
  induction L with
  | nil => intro db _ _ b hb; cases hb
  | cons c rest ih =>
    intro db hri hinv b hb bs hbs hbid
    rcases List.mem_cons.mp hb with hb | hb
    · subst hb
      show SeatFreed (expireAll (expireBooking db b) rest).1 bs.seatID
      rcases hinv bs hbs with h | h
      · exact seatFreed_expireAll_mono rest _ _ (expireBooking_seatFreed db b bs hri h hbid)
      · exact seatFreed_expireAll_mono rest _ _ (seatFreed_expire_mono db b _ h)
    · refine ih (expireBooking db c) (refInt_expire db c hri) ?_ b hb bs hbs hbid
      intro l hl
      rcases hinv l hl with h | h
      · exact link_expire db c l h
      · exact Or.inr (seatFreed_expire_mono db c _ h)

end Bulbul

namespace Bulbul

theorem getExpired_ids_nodup (db : DB) (cutoff : Int)
    (hnd : (db.bookings.map (fun b => b.id)).Nodup) :
    ((getExpiredBookings db cutoff).map (fun b => b.id)).Nodup := by
  have hsub : (db.bookings.filter (expiredPred cutoff)).Sublist db.bookings :=
    List.filter_sublist db.bookings
  have hnd2 : ((db.bookings.filter (expiredPred cutoff)).map (fun b => b.id)).Nodup :=
    (hsub.map (fun b => b.id)).nodup hnd
  have hperm : ((getExpiredBookings db cutoff).map (fun b => b.id)).Perm
      ((db.bookings.filter (expiredPred cutoff)).map (fun b => b.id)) :=
    (sortByCreated_perm _).map _
  exact hperm.nodup_iff.mpr hnd2

/-- C7: one tick of the Expirer (the job fires every `expirerTickSeconds`
= 30 s) selects exactly the bookings with status CREATED, payment_status
PENDING and created_at before now − 15 min, in ascending creation order;
for each it frees every linked seat, deletes the seat's links, sets the
booking row CANCELLED / CANCELLED and publishes `booking.expired`; every
booking not matching the predicate keeps its row unchanged.  Hypotheses:
booking ids unique (primary key) and links referencing existing seats
(foreign key). -/
theorem expirer_tick_correct (db : DB) (now : Int)
    (hnd : (db.bookings.map (fun b => b.id)).Nodup)
    (hri : RefInt db) :
    (bookingExpirationTimeout = 15 * 60 ∧ expirerTickSeconds = 30)
    ∧ (∀ b, b ∈ getExpiredBookings db (now - bookingExpirationTimeout) ↔
        (b ∈ db.bookings ∧ b.status = "CREATED" ∧ b.paymentStatus = "PENDING"
          ∧ b.createdAt < now - bookingExpirationTimeout))
    ∧ (getExpiredBookings db (now - bookingExpirationTimeout)).Pairwise
        (fun x y => x.createdAt ≤ y.createdAt)
    ∧ (checkExpiredBookings db now).2 =
        (getExpiredBookings db (now - bookingExpirationTimeout)).map (fun b => b.id)
    ∧ (∀ b ∈ getExpiredBookings db (now - bookingExpirationTimeout),
        findBooking (checkExpiredBookings db now).1 b.id =
          some { b with status := "CANCELLED", paymentStatus := "CANCELLED" })
    ∧ (∀ b ∈ getExpiredBookings db (now - bookingExpirationTimeout),
        ∀ bs ∈ db.bookingSeats, bs.bookingID = b.id →
          (∀ s ∈ (checkExpiredBookings db now).1.seats,
            s.id = bs.seatID → s.status = "FREE")
          ∧ ∀ bs2 ∈ (checkExpiredBookings db now).1.bookingSeats,
              bs2.seatID ≠ bs.seatID)
    ∧ (∀ b ∈ db.bookings, b ∉ getExpiredBookings db (now - bookingExpirationTimeout) →
        findBooking (checkExpiredBookings db now).1 b.id = findBooking db b.id) := by
  set cutoff : Int := now - bookingExpirationTimeout with hcut
  have hndL : ((getExpiredBookings db cutoff).map (fun b => b.id)).Nodup :=
    getExpired_ids_nodup db cutoff hnd
  have hfindL : ∀ b ∈ getExpiredBookings db cutoff, findBooking db b.id = some b := by
    intro b hbL
    exact findBooking_of_nodup db.bookings b hnd
      ((mem_getExpiredBookings db cutoff b).mp hbL).1
  refine ⟨⟨rfl, rfl⟩, mem_getExpiredBookings db cutoff, sortByCreated_sorted _, ?_, ?_, ?_, ?_⟩
  · exact expireAll_published _ db
  · intro b hbL
    exact expireAll_cancelled _ db hndL hfindL b hbL
  · intro b hbL bs hbs hbid
    have hsf : SeatFreed (checkExpiredBookings db now).1 bs.seatID :=
      expireAll_seatFreed db.bookingSeats _ db hri (fun l hl => Or.inl hl) b hbL bs hbs hbid
    exact ⟨hsf.1, hsf.2⟩
  · intro b hb hnot
    refine expireAll_findBooking_ne _ db b.id ?_
    intro c hc he
    have hcb : c ∈ db.bookings := ((mem_getExpiredBookings db cutoff c).mp hc).1
    have : c = b := mem_id_inj db.bookings hnd c b hcb hb he
    exact hnot (this ▸ hc)

/-- Bookings 10 (expired: created at 0, CREATED/PENDING) and 11 (recent)
with one RESERVED seat each, for the C7 witness. -/
def c7db : DB :=
  { seats := [{ id := "x1", eventID := 2, row := 1, number := 1,
                status := "RESERVED", price := some 100 },
              { id := "x2", eventID := 2, row := 1, number := 2,
                status := "RESERVED", price := some 200 }],
    bookings := [{ id := 10, eventID := 2, userID := some 1, status := "CREATED",
                   paymentStatus := "PENDING", totalAmount := some "0",
                   paymentID := none, orderID := none, createdAt := 0 },
                 { id := 11, eventID := 2, userID := some 2, status := "CREATED",
                   paymentStatus := "PENDING", totalAmount := some "0",
                   paymentID := none, orderID := none, createdAt := 9950 }],
    bookingSeats := [⟨10, "x1"⟩, ⟨11, "x2"⟩] }

/-- The recent (non-expired) booking row of `c7db`. -/
def c7recent : Booking :=
  { id := 11, eventID := 2, userID := some 2, status := "CREATED",
    paymentStatus := "PENDING", totalAmount := some "0",
    paymentID := none, orderID := none, createdAt := 9950 }

/-- The expired booking row of `c7db`. -/
def c7expired : Booking :=
  { id := 10, eventID := 2, userID := some 1, status := "CREATED",
    paymentStatus := "PENDING", totalAmount := some "0",
    paymentID := none, orderID := none, createdAt := 0 }

/-- Witness for C7 at time 10000 s: booking 10 (created at 0) is expired -
`booking.expired` published for it alone, its row CANCELLED / CANCELLED,
its seat "x1" FREE and unlinked - while the recent booking 11 is
untouched. -/
theorem expirer_tick_correct_witness :
    ((checkExpiredBookings c7db 10000).2 = [10])
    ∧ findBooking (checkExpiredBookings c7db 10000).1 10 =
        some { c7expired with status := "CANCELLED", paymentStatus := "CANCELLED" }
    ∧ (∀ s ∈ (checkExpiredBookings c7db 10000).1.seats,
        s.id = "x1" → s.status = "FREE")
    ∧ (∀ bs2 ∈ (checkExpiredBookings c7db 10000).1.bookingSeats, bs2.seatID ≠ "x1")
    ∧ findBooking (checkExpiredBookings c7db 10000).1 11 = findBooking c7db 11 := by
  have h := expirer_tick_correct c7db 10000 (by decide)
      (by show ∀ bs ∈ c7db.bookingSeats, ∃ s ∈ c7db.seats, s.id = bs.seatID
          decide)
  have hmem : c7expired ∈ getExpiredBookings c7db (10000 - bookingExpirationTimeout) := by
    decide
  have hseat := h.2.2.2.2.2.1 c7expired hmem ⟨10, "x1"⟩ (by decide) rfl
  refine ⟨?_, ?_, hseat.1, hseat.2, ?_⟩
  · rw [h.2.2.2.1]
    decide
  · exact h.2.2.2.2.1 c7expired hmem
  · exact h.2.2.2.2.2.2 c7recent (by decide) (by decide)

end Bulbul
